import Mathlib

/-!
Shallow embedding of the authentication core of the event-manager backend
(`app/config/__init__.py`, `app/api/dependencies.py`, `app/api/auth/auth.py`,
`app/api/exceptions.py`), together with the parts of its libraries that the
code's behaviour depends on: the `python-jose` JWT codec (`jose.jwt.decode`
claim validation with its default options), the FastAPI `HTTPBearer`
extractors, and the passlib bcrypt password context.

Time is modelled as integer epoch seconds (JWT `exp`/`iat` are integer
timestamps); the current wall-clock instant is passed explicitly.  The HMAC
signature of a JWS is modelled symbolically (an ideal MAC): a signature value
records exactly the key, algorithm and payload it was produced over, and
verification compares these records.  The bcrypt digest is an explicit
function parameter `bdig rounds salt secret`, so every definition stays
executable while the cryptographic core stays abstract.
-/

namespace EventManager

/-- A JWT claim set, as the Python dict carried in the token payload.
The registered claims used by this system are explicit fields; any other
entries of the dict are kept in `extra`. -/
structure Claims where
  sub : Option String := none
  exp : Option Int := none
  iat : Option Int := none
  iss : Option String := none
  aud : Option String := none
  extra : List (String × String) := []
deriving Repr, DecidableEq

/-- Symbolic model of an HMAC signature over a JWS signing input: it records
the key, the header algorithm and the payload that were signed. -/
structure Signature where
  key : String
  alg : String
  payload : Claims
deriving Repr, DecidableEq

/-- A token string as received over the wire: either not a well-formed
compact JWS (wrong number of segments, bad base64, non-JSON payload, ...) or
a well-formed header/payload/signature triple. -/
inductive TokenString where
  | malformed (raw : String)
  | wellFormed (alg : String) (payload : Claims) (sig : Signature)
deriving Repr, DecidableEq

/-- `jose.jws.sign`ing of a payload (as performed inside `jose.jwt.encode`). -/
def jwsSign (key alg : String) (payload : Claims) : TokenString :=
  .wellFormed alg payload ⟨key, alg, payload⟩

/-- The `jose` exception taxonomy relevant to `jwt.decode`.  `JWSError` is
re-raised by `jwt.decode` wrapped in a `JWTError`; `ExpiredSignatureError`
and `JWTClaimsError` are subclasses of `JWTError`. -/
inductive JoseError where
  | jwsError (msg : String)
  | expiredSignature
  | claimsError (msg : String)
deriving Repr, DecidableEq

/-- `jose.jws.verify`: reject malformed tokens; when `verify` is set, check
that the header algorithm is allowed and that the signature matches the key
and signing input; when `verify` is not set, return the payload with no
algorithm or signature check at all. -/
def jwsVerify (tok : TokenString) (key : String) (algorithms : List String)
    (verify : Bool) : Except JoseError Claims :=
  match tok with
  | .malformed _ => .error (.jwsError "Error decoding token")
  | .wellFormed alg payload sig =>
    if verify then
      if alg ∈ algorithms then
        if sig = ⟨key, alg, payload⟩ then .ok payload
        else .error (.jwsError "Signature verification failed.")
      else .error (.jwsError "The specified alg value is not allowed")
    else .ok payload

/-- The `jwt.decode` options this system touches.  `python-jose` defaults all
of them to `True`; the remaining options (`verify_nbf`, `verify_sub`, ...)
are vacuous on the claim sets this system produces and are omitted. -/
structure DecodeOptions where
  verify_signature : Bool := true
  verify_exp : Bool := true
  verify_aud : Bool := true
  verify_iss : Bool := true
deriving Repr, DecidableEq

/-- `jose.jwt._validate_exp` with zero leeway: an `exp` claim strictly below
the current time is expired; a token with no `exp` claim passes. -/
def validateExp (claims : Claims) (verify : Bool) (now : Int) :
    Except JoseError Unit :=
  if verify then
    match claims.exp with
    | some e => if e < now then .error .expiredSignature else .ok ()
    | none => .ok ()
  else .ok ()

/-- `jose.jwt._validate_aud`: a token with no `aud` claim passes, but a token
carrying an `aud` claim is rejected unless the `audience` argument of
`decode` equals it — in particular it is rejected when no audience argument
is supplied. -/
def validateAud (claims : Claims) (verify : Bool) (audience : Option String) :
    Except JoseError Unit :=
  if verify then
    match claims.aud with
    | some a =>
      match audience with
      | some want => if a = want then .ok () else .error (.claimsError "Invalid audience")
      | none => .error (.claimsError "Invalid audience")
    | none => .ok ()
  else .ok ()

/-- `jose.jwt._validate_iss`: only checks anything when an `issuer` argument
is supplied to `decode`. -/
def validateIss (claims : Claims) (verify : Bool) (issuer : Option String) :
    Except JoseError Unit :=
  if verify then
    match issuer with
    | some want =>
      if claims.iss = some want then .ok ()
      else .error (.claimsError "Invalid issuer")
    | none => .ok ()
  else .ok ()

/-- `jose.jwt.decode`: JWS verification, then claim validation in the order
`python-jose` performs it (`exp` before `aud` before `iss`); the decoded
claim set is returned unchanged when every enabled check passes. -/
def jwtDecode (tok : TokenString) (key : String) (algorithms : List String)
    (options : DecodeOptions) (audience issuer : Option String) (now : Int) :
    Except JoseError Claims :=
  match jwsVerify tok key algorithms options.verify_signature with
  | .error e => .error e
  | .ok claims =>
    match validateExp claims options.verify_exp now with
    | .error e => .error e
    | .ok _ =>
      match validateAud claims options.verify_aud audience with
      | .error e => .error e
      | .ok _ =>
        match validateIss claims options.verify_iss issuer with
        | .error e => .error e
        | .ok _ => .ok claims

/-! Configuration defaults from `app/config/__init__.py` (`Settings`). -/

def SECRET_KEY : String := "your-secret-key-change-this-in-production"

def ALGORITHM : String := "HS256"

def ACCESS_TOKEN_EXPIRE_MINUTES : Int := 1440

/-- `config.create_access_token`: refuses a claim dict with no `sub`, stamps
`exp` (now plus the supplied delta, default 1440 minutes), `iat`, `iss` and
`aud` over the input claims, and signs with the configured key and
algorithm.  `now` is the wall clock (epoch seconds), `expires_delta` is in
seconds. -/
def create_access_token (data : Claims) (now : Int)
    (expires_delta : Option Int := none) : Except String TokenString :=
  if data.sub = none then
    .error "Token data must contain 'sub' key"
  else
    let expire : Int :=
      match expires_delta with
      | some d => now + d
      | none => now + ACCESS_TOKEN_EXPIRE_MINUTES * 60
    let to_encode : Claims :=
      { data with
          exp := some expire
          iat := some now
          iss := some "event_manager_api"
          aud := some "event_manager_api_users" }
    .ok (jwsSign SECRET_KEY ALGORITHM to_encode)

/-- `config.decode_token`: `jwt.decode` with the configured key and algorithm
and all options left at their `python-jose` defaults; an
`ExpiredSignatureError` is re-raised as "Token has expired", every other
`JWTError` as "Could not validate token". -/
def decode_token (tok : TokenString) (now : Int) : Except String Claims :=
  match jwtDecode tok SECRET_KEY [ALGORITHM] {} none none now with
  | .ok payload => .ok payload
  | .error .expiredSignature => .error "Token has expired"
  | .error _ => .error "Could not validate token"

/-- `config.get_email_from_token`: `jwt.decode` with
`verify_signature=False, verify_exp=False` (all other options at their
defaults), returning the `sub` claim of the payload, or `none` on any
`JWTError`.  No wall clock is consulted. -/
def get_email_from_token (tok : TokenString) : Option String :=
  match jwtDecode tok SECRET_KEY [ALGORITHM]
      { verify_signature := false, verify_exp := false } none none 0 with
  | .ok payload => payload.sub
  | .error _ => none

/-! The HTTP error surface (`fastapi.HTTPException` as this app raises it)
and the FastAPI `HTTPBearer` extractors used by `app/api/dependencies.py`. -/

/-- An `HTTPException` as observed by the client: status code, `detail`
message and the `WWW-Authenticate` response header, when one is attached. -/
structure HttpError where
  status_code : Nat
  detail : String
  www_authenticate : Option String
deriving Repr, DecidableEq

/-- The single 401 failure minted inside `get_current_user`. -/
def credentials_exception : HttpError :=
  { status_code := 401
    detail := "Could not validate credentials"
    www_authenticate := some "Bearer" }

/-- `api.exceptions.AuthException`: 401 with a Bearer challenge header. -/
def authExceptionError (detail : String) : HttpError :=
  { status_code := 401, detail := detail, www_authenticate := some "Bearer" }

/-- `api.exceptions.BadRequestException`: 400, no challenge header. -/
def badRequestError (detail : String) : HttpError :=
  { status_code := 400, detail := detail, www_authenticate := none }

/-- ASCII lowercasing of one character (Python `str.lower` restricted to the
ASCII schemes compared here). -/
def asciiLower (c : Char) : Char :=
  if 'A' ≤ c ∧ c ≤ 'Z' then Char.ofNat (c.toNat + 32) else c

/-- ASCII lowercasing of a scheme string. -/
def strLower (s : String) : String := String.mk (s.data.map asciiLower)

/-- An `Authorization` header split into scheme and credential part, the way
`fastapi.security.utils.get_authorization_scheme_param` splits it.  A header
that is absent, or whose credential part is empty, is modelled as `none` at
the call sites (FastAPI treats both identically). -/
structure AuthorizationHeader where
  scheme : String
  credentials : TokenString
deriving Repr, DecidableEq

/-- The `HTTPBearer` missing-credential failure: 403, no challenge header. -/
def notAuthenticatedError : HttpError :=
  { status_code := 403, detail := "Not authenticated", www_authenticate := none }

/-- The `HTTPBearer` wrong-scheme failure: 403, no challenge header. -/
def invalidSchemeError : HttpError :=
  { status_code := 403, detail := "Invalid authentication credentials", www_authenticate := none }

/-- `HTTPBearer()` (with `auto_error=True`), as `security_required` in
`app/api/dependencies.py`: a missing header is rejected with
403 "Not authenticated", a non-bearer scheme with
403 "Invalid authentication credentials"; neither failure carries a
`WWW-Authenticate` header. -/
def security_required (header : Option AuthorizationHeader) :
    Except HttpError AuthorizationHeader :=
  match header with
  | none => .error notAuthenticatedError
  | some cred =>
    if cred.scheme = "" then .error notAuthenticatedError
    else if strLower cred.scheme = "bearer" then .ok cred
    else .error invalidSchemeError

/-- `HTTPBearer(auto_error=False)`, as `security_optional`: every rejection
becomes `none` instead of an error. -/
def security_optional (header : Option AuthorizationHeader) :
    Option AuthorizationHeader :=
  match header with
  | none => none
  | some cred =>
    if cred.scheme = "" then none
    else if strLower cred.scheme = "bearer" then some cred
    else none

/-! The user store boundary (`db.models.User` via Tortoise), modelled as a
list of user records with point reads by email. -/

/-- A stored user record. -/
structure User where
  id : Nat
  email : String
  first_name : String
  last_name : String
  hashed_password : String
  created_at : Int
  updated_at : Int
deriving Repr, DecidableEq

/-- `User.get_or_none(email=email)`: point read by email. -/
def getOrNone (db : List User) (email : String) : Option User :=
  db.find? (fun u => u.email = email)

/-- The `jwt.decode` options passed by both dependency functions in
`app/api/dependencies.py`: issuer and audience verification disabled,
signature and expiry verification left at their defaults. -/
def authDecodeOptions : DecodeOptions :=
  { verify_iss := false, verify_aud := false }

/-- `api.dependencies.get_current_user` (mandatory identity resolution):
bearer extraction, `jwt.decode` with `verify_iss=False, verify_aud=False`,
`sub` extraction, then user lookup; every failure after extraction raises
the one `credentials_exception`. -/
def get_current_user (db : List User) (header : Option AuthorizationHeader)
    (now : Int) : Except HttpError User :=
  match security_required header with
  | .error e => .error e
  | .ok cred =>
    match jwtDecode cred.credentials SECRET_KEY [ALGORITHM]
        authDecodeOptions none none now with
    | .error _ => .error credentials_exception
    | .ok payload =>
      match payload.sub with
      | none => .error credentials_exception
      | some email =>
        match getOrNone db email with
        | none => .error credentials_exception
        | some user => .ok user

/-- `api.dependencies.get_current_user_optional` (optional identity
resolution): the same decode path, but every failure — absent or non-bearer
header, any `JWTError`, missing `sub`, unknown subject — yields `none`. -/
def get_current_user_optional (db : List User)
    (header : Option AuthorizationHeader) (now : Int) : Option User :=
  match security_optional header with
  | none => none
  | some cred =>
    match jwtDecode cred.credentials SECRET_KEY [ALGORITHM]
        authDecodeOptions none none now with
    | .error _ => none
    | .ok payload =>
      match payload.sub with
      | none => none
      | some email => getOrNone db email

/-! The passlib bcrypt context configured in `app/config/__init__.py`
(`CryptContext(schemes=["bcrypt"], bcrypt__rounds=12, bcrypt__ident="2b")`).
The bcrypt digest itself is passed in as `bdig rounds salt preparedSecret`,
and the per-call random salt is an explicit argument of `hash`. -/

/-- The bcrypt modular-crypt format hash record: ident (`2b`), two-digit
cost, 22-character salt, 31-character checksum. -/
structure BcryptHash where
  ident : String
  rounds : Nat
  salt : String
  checksum : String
deriving Repr, DecidableEq

/-- The bcrypt base64 alphabet used by salt and checksum. -/
def isBcrypt64 (c : Char) : Bool :=
  c.isAlphanum || c = '.' || c = '/'

/-- The two digits of a bcrypt cost field. -/
def roundsDigits (n : Nat) : List Char :=
  [Char.ofNat (48 + n / 10 % 10), Char.ofNat (48 + n % 10)]

/-- Rendering of a bcrypt hash to its stored string
`$<ident>$<rounds>$<salt><checksum>`. -/
def renderBcrypt (h : BcryptHash) : String :=
  String.mk ('$' :: h.ident.data ++ '$' :: roundsDigits h.rounds
    ++ '$' :: h.salt.data ++ h.checksum.data)

/-- Identification and parsing of a stored hash string, as passlib's
`identify`/`from_string` do for the bcrypt scheme: a `$2{a,b,x,y}$` prefix,
a two-digit cost in 4..31, then exactly 22 salt and 31 checksum characters
over the bcrypt alphabet; anything else is unidentifiable. -/
def parseBcrypt (s : String) : Option BcryptHash :=
  match s.data with
  | '$' :: i1 :: i2 :: '$' :: r1 :: r2 :: '$' :: rest =>
    if i1 = '2' ∧ (i2 = 'a' ∨ i2 = 'b' ∨ i2 = 'x' ∨ i2 = 'y')
        ∧ r1.isDigit ∧ r2.isDigit
        ∧ rest.length = 53 ∧ rest.all isBcrypt64 then
      let rounds := (r1.toNat - 48) * 10 + (r2.toNat - 48)
      if 4 ≤ rounds ∧ rounds ≤ 31 then
        some ⟨String.mk [i1, i2], rounds, String.mk (rest.take 22),
          String.mk (rest.drop 22)⟩
      else none
    else none
  | _ => none

/-- Truncation of a secret to the 72-byte bcrypt input limit (passlib's
silent truncation), stopping at a character boundary. -/
def takeBytes : Nat → List Char → List Char
  | _, [] => []
  | budget, c :: cs =>
    if c.utf8Size ≤ budget then c :: takeBytes (budget - c.utf8Size) cs
    else []

/-- The secret as fed to the bcrypt digest. -/
def truncate72 (s : String) : String := String.mk (takeBytes 72 s.data)

/-- Whether a secret contains a NUL character (rejected by the bcrypt
backend). -/
def hasNul (s : String) : Bool := s.data.any (fun c => c.toNat = 0)

/-- The abstract bcrypt digest: cost, salt and prepared secret to a
checksum string. -/
def BcryptDigest : Type := Nat → String → String → String

/-- `config.get_password_hash` through `pwd_context.hash`: reject secrets
containing NUL, digest the truncated secret with a fresh salt at cost 12
and ident `2b`, and render the modular-crypt string. -/
def get_password_hash (bdig : BcryptDigest) (salt : String)
    (password : String) : Except String String :=
  if hasNul password then
    .error "source of password contains NUL"
  else
    .ok (renderBcrypt ⟨"2b", 12, salt, bdig 12 salt (truncate72 password)⟩)

/-- `config.verify_password` through `pwd_context.verify`: identify and
parse the stored hash (an unidentifiable hash raises, it does not return
false), reject NUL in the candidate secret, then recompute the digest with
the stored cost and salt and compare it to the stored checksum. -/
def verify_password (bdig : BcryptDigest) (plain_password : String)
    (hashed_password : String) : Except String Bool :=
  match parseBcrypt hashed_password with
  | none => .error "hash could not be identified"
  | some h =>
    if hasNul plain_password then
      .error "source of password contains NUL"
    else
      .ok (bdig h.rounds h.salt (truncate72 plain_password) = h.checksum)

/-- A concrete digest function (constant 31-character bcrypt-alphabet
output) used to instantiate the abstract bcrypt digest on concrete
inputs. -/
def sampleDigest : BcryptDigest :=
  fun _ _ _ => "abcdefghijklmnopqrstuvwxyzABCDE"

/-! The auth endpoints of `app/api/auth/auth.py`. -/

/-- The registration request body. -/
structure UserRegister where
  email : String
  password : String
  first_name : String
  last_name : String
deriving Repr, DecidableEq

/-- The token response returned by register and login. -/
structure TokenResponse where
  access_token : TokenString
  token_type : String
  id : Nat
  email : String
  first_name : String
  last_name : String
  created_at : Int
  updated_at : Int
deriving Repr, DecidableEq

/-- Outcome of a route handler: a response, an `HTTPException` surfaced to
the client, or an unhandled Python exception escaping the handler. -/
inductive ApiResult (α : Type) where
  | ok (value : α)
  | httpError (e : HttpError)
  | exception (msg : String)
deriving Repr, DecidableEq

/-- `config.create_user_access_token`: insists on a non-empty email, then
mints a token whose only caller-supplied claim is `sub = email`. -/
def create_user_access_token (user : User) (now : Int) :
    Except String TokenString :=
  if user.email = "" then .error "User must have an email address"
  else create_access_token { sub := some user.email } now none

/-- `auth.register`: duplicate-email check first (nothing is written on that
failure), then hash, create the user record, mint a token and answer with
it.  The pair returns the response together with the user store after the
call. -/
def register (bdig : BcryptDigest) (salt : String) (nextId : Nat)
    (db : List User) (user_data : UserRegister) (now : Int) :
    ApiResult TokenResponse × List User :=
  match getOrNone db user_data.email with
  | some _ =>
    (.httpError (badRequestError "User with this email already exists"), db)
  | none =>
    match get_password_hash bdig salt user_data.password with
    | .error e => (.exception e, db)
    | .ok hashed =>
      let user : User :=
        { id := nextId
          email := user_data.email
          first_name := user_data.first_name
          last_name := user_data.last_name
          hashed_password := hashed
          created_at := now
          updated_at := now }
      match create_user_access_token user now with
      | .error e => (.exception e, db ++ [user])
      | .ok tok =>
        (.ok { access_token := tok
               token_type := "bearer"
               id := user.id
               email := user.email
               first_name := user.first_name
               last_name := user.last_name
               created_at := user.created_at
               updated_at := user.updated_at }, db ++ [user])

/-- `auth.login`: look the user up by the form username; a missing user and
a failing password check raise the same
`AuthException("Incorrect email or password")`; on success mint a token and
answer with it. -/
def login (bdig : BcryptDigest) (db : List User)
    (username password : String) (now : Int) : ApiResult TokenResponse :=
  match getOrNone db username with
  | none => .httpError (authExceptionError "Incorrect email or password")
  | some user =>
    match verify_password bdig password user.hashed_password with
    | .error e => .exception e
    | .ok false => .httpError (authExceptionError "Incorrect email or password")
    | .ok true =>
      match create_user_access_token user now with
      | .error e => .exception e
      | .ok tok =>
        .ok { access_token := tok
              token_type := "bearer"
              id := user.id
              email := user.email
              first_name := user.first_name
              last_name := user.last_name
              created_at := user.created_at
              updated_at := user.updated_at }

/-! Helper lemmas shared by the claim theorems. -/

/-- A bearer-scheme header passes the mandatory extractor unchanged. -/
theorem security_required_bearer (t : TokenString) :
    security_required (some ⟨"Bearer", t⟩) = .ok ⟨"Bearer", t⟩ := by
  simp [security_required, show strLower "Bearer" = "bearer" from by decide,
    show ("Bearer" : String) ≠ "" from by decide]

/-- A bearer-scheme header passes the optional extractor unchanged. -/
theorem security_optional_bearer (t : TokenString) :
    security_optional (some ⟨"Bearer", t⟩) = some ⟨"Bearer", t⟩ := by
  simp [security_optional, show strLower "Bearer" = "bearer" from by decide,
    show ("Bearer" : String) ≠ "" from by decide]

/-- The optional extractor only ever returns the header it was given. -/
theorem security_optional_some (header : Option AuthorizationHeader)
    (cred : AuthorizationHeader) (h : security_optional header = some cred) :
    header = some cred := by
  cases header with
  | none => simp [security_optional] at h
  | some c =>
    simp only [security_optional] at h
    split at h
    · exact absurd h (by simp)
    · split at h
      · cases h; rfl
      · exact absurd h (by simp)

/-- JWS verification accepts a token signed with the expected key under an
allowed algorithm, whether or not signature checking is enabled. -/
theorem jwsVerify_sign (key alg : String) (claims : Claims)
    (algorithms : List String) (h : alg ∈ algorithms) (verify : Bool) :
    jwsVerify (jwsSign key alg claims) key algorithms verify = .ok claims := by
  cases verify <;> simp [jwsVerify, jwsSign, h]

/-- Under the dependency-layer options, a token signed with the configured
key and algorithm decodes to exactly its claim set whenever it is not
expired, whatever its issuer and audience claims hold. -/
theorem jwtDecode_sign_auth (claims : Claims) (now : Int)
    (hexp : ∀ e, claims.exp = some e → ¬ e < now) :
    jwtDecode (jwsSign SECRET_KEY ALGORITHM claims) SECRET_KEY [ALGORITHM]
      authDecodeOptions none none now = .ok claims := by
  have hv := jwsVerify_sign SECRET_KEY ALGORITHM claims [ALGORITHM] (by simp) true
  unfold jwtDecode
  rw [show authDecodeOptions.verify_signature = true from rfl, hv]
  cases hx : claims.exp with
  | none => simp [validateExp, validateAud, validateIss, authDecodeOptions, hx]
  | some e =>
    simp [validateExp, validateAud, validateIss, authDecodeOptions, hx, hexp e hx]

/-- Under the dependency-layer options, a correctly signed token whose
expiry lies strictly in the past fails with the expired outcome. -/
theorem jwtDecode_sign_auth_expired (claims : Claims) (e now : Int)
    (hx : claims.exp = some e) (h : e < now) :
    jwtDecode (jwsSign SECRET_KEY ALGORITHM claims) SECRET_KEY [ALGORITHM]
      authDecodeOptions none none now = .error .expiredSignature := by
  have hv := jwsVerify_sign SECRET_KEY ALGORITHM claims [ALGORITHM] (by simp) true
  unfold jwtDecode
  rw [show authDecodeOptions.verify_signature = true from rfl, hv]
  simp [validateExp, authDecodeOptions, hx, h]

/-- Under the default options, a correctly signed token whose expiry lies
strictly in the past fails with the expired outcome. -/
theorem jwtDecode_sign_default_expired (claims : Claims) (e now : Int)
    (hx : claims.exp = some e) (h : e < now) :
    jwtDecode (jwsSign SECRET_KEY ALGORITHM claims) SECRET_KEY [ALGORITHM]
      {} none none now = .error .expiredSignature := by
  have hv := jwsVerify_sign SECRET_KEY ALGORITHM claims [ALGORITHM] (by simp) true
  unfold jwtDecode
  rw [show DecodeOptions.verify_signature {} = true from rfl, hv]
  simp [validateExp, hx, h]

/-- Claim C1 (amended): every decode-stage failure of mandatory identity
resolution — malformed token, invalid signature, expired token, missing
subject, unknown subject — terminates with the single uniform 401
Bearer-challenge `credentials_exception`; but a request with no
Authorization header never reaches that path: the bearer extractor rejects
it first with a 403 "Not authenticated" failure carrying no challenge
header. -/
theorem mandatory_resolution_failure_modes (db : List User) (now : Int) :
    (get_current_user db none now = .error notAuthenticatedError)
    ∧ (∀ raw, get_current_user db (some ⟨"Bearer", .malformed raw⟩) now
        = .error credentials_exception)
    ∧ (∀ alg payload sig, sig ≠ ⟨SECRET_KEY, alg, payload⟩ →
        get_current_user db (some ⟨"Bearer", .wellFormed alg payload sig⟩) now
          = .error credentials_exception)
    ∧ (∀ claims e, claims.exp = some e → e < now →
        get_current_user db
            (some ⟨"Bearer", jwsSign SECRET_KEY ALGORITHM claims⟩) now
          = .error credentials_exception)
    ∧ (∀ claims, claims.sub = none → (∀ e, claims.exp = some e → ¬ e < now) →
        get_current_user db
            (some ⟨"Bearer", jwsSign SECRET_KEY ALGORITHM claims⟩) now
          = .error credentials_exception)
    ∧ (∀ claims email, claims.sub = some email →
        (∀ e, claims.exp = some e → ¬ e < now) → getOrNone db email = none →
        get_current_user db
            (some ⟨"Bearer", jwsSign SECRET_KEY ALGORITHM claims⟩) now
          = .error credentials_exception) := by
  refine ⟨rfl, ?_, ?_, ?_, ?_, ?_⟩
  · intro raw
    simp [get_current_user, security_required_bearer, jwtDecode, jwsVerify]
  · intro alg payload sig hsig
    simp only [get_current_user, security_required_bearer]
    by_cases halg : alg = ALGORITHM
    · subst halg
      simp [jwtDecode, jwsVerify, authDecodeOptions, hsig]
    · simp [jwtDecode, jwsVerify, authDecodeOptions, halg]
  · intro claims e hx h
    simp [get_current_user, security_required_bearer,
      jwtDecode_sign_auth_expired claims e now hx h]
  · intro claims hsub hexp
    simp [get_current_user, security_required_bearer,
      jwtDecode_sign_auth claims now hexp, hsub]
  · intro claims email hsub hexp hdb
    simp [get_current_user, security_required_bearer,
      jwtDecode_sign_auth claims now hexp, hsub, hdb]

/-- Claim C1 counterexample: the missing-header failure is HTTP 403 with no
challenge header, which differs from the uniform 401 Bearer-challenge
failure produced by the decode-stage failures (shown here on a malformed
token), so the claim as stated is false. -/
theorem mandatory_resolution_missing_header_403 :
    get_current_user [] none 0 = .error notAuthenticatedError
    ∧ get_current_user [] (some ⟨"Bearer", .malformed "x"⟩) 0
      = .error credentials_exception
    ∧ notAuthenticatedError ≠ credentials_exception := by
  exact ⟨rfl, rfl, by decide⟩

/-- Witness for the amended C1 theorem at concrete inputs. -/
theorem mandatory_resolution_failure_modes_witness :
    get_current_user [] (some ⟨"Bearer", .malformed "zz"⟩) 7
      = .error credentials_exception
    ∧ get_current_user []
        (some ⟨"Bearer", .wellFormed ALGORITHM { sub := some "a@x.com" }
          ⟨"other-key", ALGORITHM, { sub := some "a@x.com" }⟩⟩) 7
      = .error credentials_exception
    ∧ get_current_user []
        (some ⟨"Bearer", jwsSign SECRET_KEY ALGORITHM
          { sub := some "a@x.com", exp := some 3 }⟩) 7
      = .error credentials_exception
    ∧ get_current_user []
        (some ⟨"Bearer", jwsSign SECRET_KEY ALGORITHM
          { exp := some 9 }⟩) 7
      = .error credentials_exception
    ∧ get_current_user []
        (some ⟨"Bearer", jwsSign SECRET_KEY ALGORITHM
          { sub := some "a@x.com", exp := some 9 }⟩) 7
      = .error credentials_exception := by
  refine ⟨(mandatory_resolution_failure_modes [] 7).2.1 "zz",
    (mandatory_resolution_failure_modes [] 7).2.2.1 ALGORITHM
      { sub := some "a@x.com" } ⟨"other-key", ALGORITHM, { sub := some "a@x.com" }⟩
      (by decide),
    (mandatory_resolution_failure_modes [] 7).2.2.2.1
      { sub := some "a@x.com", exp := some 3 } 3 rfl (by decide),
    (mandatory_resolution_failure_modes [] 7).2.2.2.2.1
      { exp := some 9 } rfl ?_,
    (mandatory_resolution_failure_modes [] 7).2.2.2.2.2
      { sub := some "a@x.com", exp := some 9 } "a@x.com" rfl ?_ rfl⟩
  · intro e he
    simp only [Option.some.injEq] at he
    omega
  · intro e he
    simp only [Option.some.injEq] at he
    omega

/-- Claim C2: optional identity resolution is a total function into
`Option User` — an absent header, a malformed token, an expired token (and,
by the characterization, an invalid signature, a missing subject or an
unknown subject) all terminate with `none`, never with an error; and a user
is returned exactly when the bearer token decodes successfully and its
subject matches a stored user. -/
theorem optional_resolution_never_fails (db : List User)
    (header : Option AuthorizationHeader) (now : Int) :
    (get_current_user_optional db none now = none)
    ∧ (∀ raw scheme,
        get_current_user_optional db (some ⟨scheme, .malformed raw⟩) now = none)
    ∧ (∀ claims e, claims.exp = some e → e < now →
        get_current_user_optional db
          (some ⟨"Bearer", jwsSign SECRET_KEY ALGORITHM claims⟩) now = none)
    ∧ (∀ u : User, get_current_user_optional db header now = some u ↔
        ∃ cred payload email, security_optional header = some cred
          ∧ jwtDecode cred.credentials SECRET_KEY [ALGORITHM] authDecodeOptions
              none none now = .ok payload
          ∧ payload.sub = some email
          ∧ getOrNone db email = some u) := by
  refine ⟨rfl, ?_, ?_, ?_⟩
  · intro raw scheme
    unfold get_current_user_optional
    cases h : security_optional (some ⟨scheme, .malformed raw⟩) with
    | none => rfl
    | some cred =>
      have h2 := security_optional_some _ _ h
      injection h2 with h3
      subst h3
      simp [jwtDecode, jwsVerify]
  · intro claims e hx hlt
    simp [get_current_user_optional, security_optional_bearer,
      jwtDecode_sign_auth_expired claims e now hx hlt]
  · intro u
    unfold get_current_user_optional
    cases hso : security_optional header with
    | none => simp
    | some cred =>
      cases hdec : jwtDecode cred.credentials SECRET_KEY [ALGORITHM]
          authDecodeOptions none none now with
      | error e => simp [hdec]
      | ok payload =>
        cases hsub : payload.sub with
        | none => simp [hdec, hsub]
        | some email => simp [hdec, hsub]

/-- Witness for the C2 theorem at concrete inputs: no header, a
non-bearer scheme with a malformed token, an expired token, and a
successful resolution against a one-user store. -/
theorem optional_resolution_never_fails_witness :
    get_current_user_optional [] none 0 = none
    ∧ get_current_user_optional [] (some ⟨"Token", .malformed "b"⟩) 0 = none
    ∧ get_current_user_optional []
        (some ⟨"Bearer", jwsSign SECRET_KEY ALGORITHM
          { sub := some "a@x.com", exp := some 1 }⟩) 5 = none
    ∧ get_current_user_optional [⟨1, "a@x.com", "A", "X", "h", 0, 0⟩]
        (some ⟨"Bearer", jwsSign SECRET_KEY ALGORITHM
          { sub := some "a@x.com", exp := some 9 }⟩) 5
      = some ⟨1, "a@x.com", "A", "X", "h", 0, 0⟩ := by
  refine ⟨(optional_resolution_never_fails [] none 0).1,
    (optional_resolution_never_fails [] none 0).2.1 "b" "Token",
    (optional_resolution_never_fails []
      (some ⟨"Bearer", jwsSign SECRET_KEY ALGORITHM
        { sub := some "a@x.com", exp := some 1 }⟩) 5).2.2.1
      { sub := some "a@x.com", exp := some 1 } 1 rfl (by decide), ?_⟩
  refine ((optional_resolution_never_fails [⟨1, "a@x.com", "A", "X", "h", 0, 0⟩]
      (some ⟨"Bearer", jwsSign SECRET_KEY ALGORITHM
        { sub := some "a@x.com", exp := some 9 }⟩) 5).2.2.2
      ⟨1, "a@x.com", "A", "X", "h", 0, 0⟩).mpr
    ⟨⟨"Bearer", jwsSign SECRET_KEY ALGORITHM
        { sub := some "a@x.com", exp := some 9 }⟩,
      { sub := some "a@x.com", exp := some 9 }, "a@x.com",
      security_optional_bearer _, jwtDecode_sign_auth _ 5 ?_, rfl, by decide⟩
  intro e he
  simp only [Option.some.injEq] at he
  omega

/-- Claim C3 (amended): the two identity-resolution decode paths disable
issuer and audience verification, so a correctly signed unexpired token
decodes there whatever `iss`/`aud` it embeds; but `decode_token` leaves the
default audience verification on while supplying no expected audience, so
it rejects every token embedding an `aud` claim — in particular every token
the system's own encoder mints.  The "one consistent verification policy"
part of the claim is therefore false. -/
theorem decode_policy_iss_aud (claims : Claims) (now : Int)
    (i a : Option String)
    (hexp : ∀ e, claims.exp = some e → ¬ e < now) :
    (jwtDecode (jwsSign SECRET_KEY ALGORITHM { claims with iss := i, aud := a })
        SECRET_KEY [ALGORITHM] authDecodeOptions none none now
      = .ok { claims with iss := i, aud := a })
    ∧ (∀ s, decode_token
        (jwsSign SECRET_KEY ALGORITHM { claims with aud := some s }) now
      = .error "Could not validate token") := by
  constructor
  · exact jwtDecode_sign_auth { claims with iss := i, aud := a } now hexp
  · intro s
    unfold decode_token
    have hv := jwsVerify_sign SECRET_KEY ALGORITHM
      { claims with aud := some s } [ALGORITHM] (by simp) true
    unfold jwtDecode
    rw [show DecodeOptions.verify_signature {} = true from rfl, hv]
    cases hx : claims.exp with
    | none => simp [validateExp, validateAud, hx]
    | some e => simp [validateExp, validateAud, hx, hexp e hx]

/-- Claim C3 counterexample: the token minted by `create_access_token` for
subject "a@x.com" at time 0 is correctly signed and far from expired, yet
`decode_token` — one of the system's decode paths — rejects it, because of
its embedded audience claim. -/
theorem decode_token_rejects_encoded_token :
    create_access_token { sub := some "a@x.com" } 0 none
      = .ok (jwsSign SECRET_KEY ALGORITHM
          { sub := some "a@x.com", exp := some 86400, iat := some 0,
            iss := some "event_manager_api",
            aud := some "event_manager_api_users" })
    ∧ decode_token (jwsSign SECRET_KEY ALGORITHM
          { sub := some "a@x.com", exp := some 86400, iat := some 0,
            iss := some "event_manager_api",
            aud := some "event_manager_api_users" }) 0
      = .error "Could not validate token" := ⟨rfl, rfl⟩

/-- Witness for the amended C3 theorem at concrete inputs. -/
theorem decode_policy_iss_aud_witness :
    jwtDecode (jwsSign SECRET_KEY ALGORITHM
        { sub := some "a@x.com", exp := some 9, iss := some "other-iss",
          aud := some "other-aud" })
        SECRET_KEY [ALGORITHM] authDecodeOptions none none 5
      = .ok { sub := some "a@x.com", exp := some 9, iss := some "other-iss",
              aud := some "other-aud" }
    ∧ decode_token (jwsSign SECRET_KEY ALGORITHM
        { sub := some "a@x.com", exp := some 9, aud := some "other-aud" }) 5
      = .error "Could not validate token" := by
  have hexp : ∀ e : Int,
      ({ sub := some "a@x.com", exp := some 9 } : Claims).exp = some e →
        ¬ e < 5 := by
    intro e he
    simp only [Option.some.injEq] at he
    omega
  have h := decode_policy_iss_aud { sub := some "a@x.com", exp := some 9 } 5
    (some "other-iss") (some "other-aud") hexp
  have h2 := decode_policy_iss_aud { sub := some "a@x.com", exp := some 9 } 5
    none none hexp
  exact ⟨h.1, h2.2 "other-aud"⟩

/-- Claim C4: decoding a correctly signed token strictly after its embedded
expiry fails with the dedicated expired outcome (a constructor of its own,
not collapsed with the malformed or signature-invalid outcomes), with no
leeway: at any instant up to and including the expiry instant the decode
never reports expiry, and one second past it `decode_token` reports
"Token has expired". -/
theorem expired_token_decode (claims : Claims) (e now : Int)
    (hx : claims.exp = some e) :
    (e < now → jwtDecode (jwsSign SECRET_KEY ALGORITHM claims) SECRET_KEY
        [ALGORITHM] {} none none now = .error .expiredSignature)
    ∧ (¬ e < now → jwtDecode (jwsSign SECRET_KEY ALGORITHM claims) SECRET_KEY
        [ALGORITHM] {} none none now ≠ .error .expiredSignature)
    ∧ (e < now → decode_token (jwsSign SECRET_KEY ALGORITHM claims) now
        = .error "Token has expired")
    ∧ (∀ msg, JoseError.expiredSignature ≠ .jwsError msg
        ∧ JoseError.expiredSignature ≠ .claimsError msg) := by
  refine ⟨?_, ?_, ?_, ?_⟩
  · intro hlt
    exact jwtDecode_sign_default_expired claims e now hx hlt
  · intro hnl
    have hv := jwsVerify_sign SECRET_KEY ALGORITHM claims [ALGORITHM]
      (by simp) true
    unfold jwtDecode
    rw [show DecodeOptions.verify_signature {} = true from rfl, hv]
    cases ha : claims.aud with
    | none => simp [validateExp, validateAud, validateIss, hx, hnl, ha]
    | some a => simp [validateExp, validateAud, validateIss, hx, hnl, ha]
  · intro hlt
    unfold decode_token
    rw [jwtDecode_sign_default_expired claims e now hx hlt]
  · intro msg
    exact ⟨fun h => JoseError.noConfusion h, fun h => JoseError.noConfusion h⟩

/-- Witness for the C4 theorem: a token expiring at instant 10 is rejected
as expired at instant 11 but not at the boundary instant 10 itself. -/
theorem expired_token_decode_witness :
    jwtDecode (jwsSign SECRET_KEY ALGORITHM
        { sub := some "a@x.com", exp := some 10 })
        SECRET_KEY [ALGORITHM] {} none none 11 = .error .expiredSignature
    ∧ jwtDecode (jwsSign SECRET_KEY ALGORITHM
        { sub := some "a@x.com", exp := some 10 })
        SECRET_KEY [ALGORITHM] {} none none 10 ≠ .error .expiredSignature
    ∧ decode_token (jwsSign SECRET_KEY ALGORITHM
        { sub := some "a@x.com", exp := some 10 }) 11
      = .error "Token has expired" := by
  exact ⟨(expired_token_decode { sub := some "a@x.com", exp := some 10 } 10 11
      rfl).1 (by decide),
    (expired_token_decode { sub := some "a@x.com", exp := some 10 } 10 10
      rfl).2.1 (by decide),
    (expired_token_decode { sub := some "a@x.com", exp := some 10 } 10 11
      rfl).2.2.1 (by decide)⟩

/-- Claim C5 counterexample: for the claim set {sub: "a@x.com"} encoded at
time 0, decoding the resulting token at time 0 — a day before its expiry —
does not return the encoded claim set: `decode_token` rejects the token
outright (embedded audience), so `decode(encode(claims)) == claims` fails. -/
theorem roundtrip_counterexample :
    create_access_token { sub := some "a@x.com" } 0 none
      = .ok (jwsSign SECRET_KEY ALGORITHM
          { sub := some "a@x.com", exp := some 86400, iat := some 0,
            iss := some "event_manager_api",
            aud := some "event_manager_api_users" })
    ∧ decode_token (jwsSign SECRET_KEY ALGORITHM
          { sub := some "a@x.com", exp := some 86400, iat := some 0,
            iss := some "event_manager_api",
            aud := some "event_manager_api_users" }) 0
      ≠ .ok { sub := some "a@x.com" } := by
  refine ⟨rfl, fun h => ?_⟩
  have hd : decode_token (jwsSign SECRET_KEY ALGORITHM
      { sub := some "a@x.com", exp := some 86400, iat := some 0,
        iss := some "event_manager_api",
        aud := some "event_manager_api_users" }) 0
      = .error "Could not validate token" := rfl
  rw [hd] at h
  exact Except.noConfusion h

/-- Claim C5 (amended): the encode/decode round trip holds only under the
identity-resolution decode policy (audience verification disabled) and only
up to the registered claims the encoder overwrites: decoding before expiry
returns the encoded claim set with `exp`, `iat`, `iss`, `aud` stamped by the
encoder, while every caller-supplied claim outside those four — the subject
and all extra entries — round-trips unchanged. -/
theorem encode_decode_roundtrip (data : Claims) (now delta tnow : Int)
    (s : String) (hsub : data.sub = some s) (hbefore : ¬ now + delta < tnow) :
    create_access_token data now (some delta)
      = .ok (jwsSign SECRET_KEY ALGORITHM
          { data with exp := some (now + delta), iat := some now,
                      iss := some "event_manager_api",
                      aud := some "event_manager_api_users" })
    ∧ jwtDecode (jwsSign SECRET_KEY ALGORITHM
          { data with exp := some (now + delta), iat := some now,
                      iss := some "event_manager_api",
                      aud := some "event_manager_api_users" })
        SECRET_KEY [ALGORITHM] authDecodeOptions none none tnow
      = .ok { data with exp := some (now + delta), iat := some now,
                        iss := some "event_manager_api",
                        aud := some "event_manager_api_users" }
    ∧ ({ data with exp := some (now + delta), iat := some now,
                   iss := some "event_manager_api",
                   aud := some "event_manager_api_users" } : Claims).sub
        = data.sub
    ∧ ({ data with exp := some (now + delta), iat := some now,
                   iss := some "event_manager_api",
                   aud := some "event_manager_api_users" } : Claims).extra
        = data.extra := by
  refine ⟨?_, ?_, rfl, rfl⟩
  · simp [create_access_token, hsub]
  · refine jwtDecode_sign_auth _ tnow ?_
    intro e he
    simp only [Option.some.injEq] at he
    omega

/-- Witness for the amended C5 theorem: a claim set with a subject and one
extra entry, encoded at time 0 with a 60-second lifetime and decoded at
time 30. -/
theorem encode_decode_roundtrip_witness :
    create_access_token { sub := some "a@x.com",
                          extra := [("role", "admin")] } 0 (some 60)
      = .ok (jwsSign SECRET_KEY ALGORITHM
          { sub := some "a@x.com", exp := some 60, iat := some 0,
            iss := some "event_manager_api",
            aud := some "event_manager_api_users",
            extra := [("role", "admin")] })
    ∧ jwtDecode (jwsSign SECRET_KEY ALGORITHM
          { sub := some "a@x.com", exp := some 60, iat := some 0,
            iss := some "event_manager_api",
            aud := some "event_manager_api_users",
            extra := [("role", "admin")] })
        SECRET_KEY [ALGORITHM] authDecodeOptions none none 30
      = .ok { sub := some "a@x.com", exp := some 60, iat := some 0,
              iss := some "event_manager_api",
              aud := some "event_manager_api_users",
              extra := [("role", "admin")] } := by
  have h := encode_decode_roundtrip
    { sub := some "a@x.com", extra := [("role", "admin")] } 0 60 30 "a@x.com"
    rfl (by decide)
  exact ⟨h.1, h.2.1⟩

/-- Parsing a rendered bcrypt hash with a well-formed salt and checksum
recovers exactly the rendered record. -/
theorem parseBcrypt_renderBcrypt (salt chk : String)
    (hsl : salt.data.length = 22) (hsc : salt.data.all isBcrypt64)
    (hcl : chk.data.length = 31) (hcc : chk.data.all isBcrypt64) :
    parseBcrypt (renderBcrypt ⟨"2b", 12, salt, chk⟩)
      = some ⟨"2b", 12, salt, chk⟩ := by
  have hre : renderBcrypt ⟨"2b", 12, salt, chk⟩
      = String.mk ('$' :: '2' :: 'b' :: '$' :: '1' :: '2' :: '$'
        :: (salt.data ++ chk.data)) := by
    simp only [renderBcrypt, roundsDigits]
    rfl
  have hl : (salt.data ++ chk.data).length = 53 := by
    simp [List.length_append, hsl, hcl]
  have hall : (salt.data ++ chk.data).all isBcrypt64 = true := by
    rw [List.all_append, hsc, hcc]; rfl
  have htake : (salt.data ++ chk.data).take 22 = salt.data := by
    rw [← hsl]; exact List.take_left _ _
  have hdrop : (salt.data ++ chk.data).drop 22 = chk.data := by
    rw [← hsl]; exact List.drop_left _ _
  have hmksalt : String.mk salt.data = salt := by cases salt; rfl
  have hmkchk : String.mk chk.data = chk := by cases chk; rfl
  rw [hre]
  simp only [parseBcrypt]
  simp [hl, hall, htake, hdrop, hmksalt, hmkchk]

/-- Claim C6: for every digest function, well-formed salt and NUL-free
secret (the digest producing, as bcrypt does, a 31-character checksum over
the bcrypt alphabet), hashing never fails, and verifying the secret against
the hash freshly produced from it returns true. -/
theorem hash_verify_roundtrip (bdig : BcryptDigest) (salt s : String)
    (hsl : salt.data.length = 22) (hsc : salt.data.all isBcrypt64)
    (hcl : (bdig 12 salt (truncate72 s)).data.length = 31)
    (hcc : (bdig 12 salt (truncate72 s)).data.all isBcrypt64)
    (hnul : hasNul s = false) :
    get_password_hash bdig salt s
      = .ok (renderBcrypt ⟨"2b", 12, salt, bdig 12 salt (truncate72 s)⟩)
    ∧ verify_password bdig s
        (renderBcrypt ⟨"2b", 12, salt, bdig 12 salt (truncate72 s)⟩)
      = .ok true := by
  constructor
  · simp [get_password_hash, hnul]
  · simp [verify_password,
      parseBcrypt_renderBcrypt salt (bdig 12 salt (truncate72 s)) hsl hsc hcl hcc,
      hnul]

/-- Witness for the C6 theorem at a concrete digest, salt and secret. -/
theorem hash_verify_roundtrip_witness :
    get_password_hash sampleDigest "0123456789012345678901" "Secret123"
      = .ok (renderBcrypt ⟨"2b", 12, "0123456789012345678901",
          "abcdefghijklmnopqrstuvwxyzABCDE"⟩)
    ∧ verify_password sampleDigest "Secret123"
        (renderBcrypt ⟨"2b", 12, "0123456789012345678901",
          "abcdefghijklmnopqrstuvwxyzABCDE"⟩)
      = .ok true := by
  have h := hash_verify_roundtrip sampleDigest "0123456789012345678901"
    "Secret123" (by decide) (by decide) (by decide) (by decide) (by decide)
  exact ⟨h.1, h.2⟩

/-- Claim C7 (amended): on a stored hash string that cannot be identified
as a bcrypt hash, verify raises an identification error — it does not
return false. -/
theorem verify_malformed_hash (bdig : BcryptDigest) (plain stored : String)
    (h : parseBcrypt stored = none) :
    verify_password bdig plain stored = .error "hash could not be identified"
    ∧ verify_password bdig plain stored ≠ .ok false := by
  simp [verify_password, h]

/-- Claim C7 counterexample: verifying the plaintext "x" against the
malformed stored hash "garbage" yields an error, never `false` (nor any
boolean), so "returns false rather than throwing" is false. -/
theorem verify_malformed_hash_counterexample :
    verify_password sampleDigest "x" "garbage"
      = .error "hash could not be identified"
    ∧ ∀ b : Bool, verify_password sampleDigest "x" "garbage" ≠ .ok b := by
  constructor
  · rfl
  · intro b h
    rw [show verify_password sampleDigest "x" "garbage"
        = .error "hash could not be identified" from rfl] at h
    exact Except.noConfusion h

/-- Witness for the amended C7 theorem at a concrete malformed hash. -/
theorem verify_malformed_hash_witness :
    verify_password sampleDigest "pw" "not-a-hash"
      = .error "hash could not be identified" :=
  (verify_malformed_hash sampleDigest "pw" "not-a-hash" rfl).1

/-- Claim C8: registering an email that is already stored fails with the
specific 400 bad-request failure, and the user store after the call is the
store before the call — no record is created and the existing record,
its password hash included, is untouched. -/
theorem register_duplicate_email (bdig : BcryptDigest) (salt : String)
    (nextId : Nat) (db : List User) (data : UserRegister) (now : Int)
    (u : User) (h : getOrNone db data.email = some u) :
    register bdig salt nextId db data now
      = (.httpError (badRequestError "User with this email already exists"), db)
    ∧ (register bdig salt nextId db data now).2 = db
    ∧ getOrNone (register bdig salt nextId db data now).2 data.email = some u := by
  have h1 : register bdig salt nextId db data now
      = (.httpError (badRequestError "User with this email already exists"), db) := by
    simp [register, h]
  refine ⟨h1, by rw [h1], by rw [h1]; exact h⟩

/-- Witness for the C8 theorem: a second registration of "a@x.com" against
a store already holding that email leaves the store — and the first user's
stored hash "oldhash" — unchanged. -/
theorem register_duplicate_email_witness :
    register sampleDigest "0123456789012345678901" 2
        [⟨1, "a@x.com", "A", "X", "oldhash", 0, 0⟩]
        ⟨"a@x.com", "Secret123", "B", "Y"⟩ 5
      = (.httpError (badRequestError "User with this email already exists"),
         [⟨1, "a@x.com", "A", "X", "oldhash", 0, 0⟩]) :=
  (register_duplicate_email sampleDigest "0123456789012345678901" 2
    [⟨1, "a@x.com", "A", "X", "oldhash", 0, 0⟩]
    ⟨"a@x.com", "Secret123", "B", "Y"⟩ 5
    ⟨1, "a@x.com", "A", "X", "oldhash", 0, 0⟩ (by decide)).1

/-- Claim C9: a login for a username not in the store and a login for a
stored user with a wrong password produce the same observable outcome — the
one generic 401 authentication failure — so the failure reveals nothing
about whether the email exists. -/
theorem login_failure_indistinguishable (bdig : BcryptDigest)
    (dbA dbB : List User) (username password : String) (now : Int)
    (hA : getOrNone dbA username = none)
    (u : User) (hB : getOrNone dbB username = some u)
    (hpw : verify_password bdig password u.hashed_password = .ok false) :
    login bdig dbA username password now = login bdig dbB username password now
    ∧ login bdig dbA username password now
      = .httpError (authExceptionError "Incorrect email or password") := by
  have e1 : login bdig dbA username password now
      = .httpError (authExceptionError "Incorrect email or password") := by
    simp [login, hA]
  have e2 : login bdig dbB username password now
      = .httpError (authExceptionError "Incorrect email or password") := by
    simp [login, hB, hpw]
  exact ⟨e1.trans e2.symm, e1⟩

/-- Witness for the C9 theorem: login against an empty store and login
against a store holding "a@x.com" with a non-matching stored hash produce
the identical generic failure. -/
theorem login_failure_indistinguishable_witness :
    login sampleDigest [] "a@x.com" "pw" 0
      = login sampleDigest
          [⟨1, "a@x.com", "A", "X",
            renderBcrypt ⟨"2b", 12, "0123456789012345678901",
              "0000000000000000000000000000000"⟩, 0, 0⟩] "a@x.com" "pw" 0
    ∧ login sampleDigest [] "a@x.com" "pw" 0
      = .httpError (authExceptionError "Incorrect email or password") :=
  login_failure_indistinguishable sampleDigest []
    [⟨1, "a@x.com", "A", "X",
      renderBcrypt ⟨"2b", 12, "0123456789012345678901",
        "0000000000000000000000000000000"⟩, 0, 0⟩] "a@x.com" "pw" 0 rfl
    ⟨1, "a@x.com", "A", "X",
      renderBcrypt ⟨"2b", 12, "0123456789012345678901",
        "0000000000000000000000000000000"⟩, 0, 0⟩ (by decide) rfl

/-- Claim C10 (amended): `get_email_from_token` skips signature and expiry
verification — any well-formed token, whatever key it was signed with and
however stale, decodes — but it keeps the default audience validation, so
it returns the embedded subject (or none when absent) only for tokens
carrying no `aud` claim; a token embedding an `aud` claim — as every token
minted by this system does — yields none instead of its subject.  Malformed
strings also yield none. -/
theorem get_email_from_token_no_verify (key alg : String) (claims : Claims) :
    (claims.aud = none →
      get_email_from_token (jwsSign key alg claims) = claims.sub)
    ∧ (∀ a, claims.aud = some a →
      get_email_from_token (jwsSign key alg claims) = none)
    ∧ (∀ raw, get_email_from_token (.malformed raw) = none) := by
  refine ⟨?_, ?_, ?_⟩
  · intro ha
    simp [get_email_from_token, jwtDecode, jwsVerify, jwsSign, validateExp,
      validateAud, validateIss, ha]
  · intro a ha
    simp [get_email_from_token, jwtDecode, jwsVerify, jwsSign, validateExp,
      validateAud, validateIss, ha]
  · intro raw
    simp [get_email_from_token, jwtDecode, jwsVerify]

/-- Claim C10 counterexample: a structurally well-formed token whose
subject is "a@x.com" and whose audience claim is the one the system's own
encoder embeds yields none — not its subject — while the same token
without the audience claim confirms that neither the (wrong) signing key
nor the long-past expiry is checked. -/
theorem get_email_from_token_counterexample :
    get_email_from_token (jwsSign "some-other-key" ALGORITHM
        { sub := some "a@x.com", exp := some (-1),
          aud := some "event_manager_api_users" }) = none
    ∧ get_email_from_token (jwsSign "some-other-key" ALGORITHM
        { sub := some "a@x.com", exp := some (-1) }) = some "a@x.com" :=
  ⟨rfl, rfl⟩

/-- Witness for the amended C10 theorem at concrete tokens. -/
theorem get_email_from_token_no_verify_witness :
    get_email_from_token (jwsSign "k" "HS512"
        { sub := some "b@y.org", exp := some (-100) }) = some "b@y.org"
    ∧ get_email_from_token (jwsSign "k" ALGORITHM
        { sub := some "b@y.org", aud := some "event_manager_api_users" })
      = none :=
  ⟨(get_email_from_token_no_verify "k" "HS512"
      { sub := some "b@y.org", exp := some (-100) }).1 rfl,
    (get_email_from_token_no_verify "k" ALGORITHM
      { sub := some "b@y.org", aud := some "event_manager_api_users" }).2.1
      "event_manager_api_users" rfl⟩

end EventManager
